import Mathlib

/-!
Verification of the authentication and authorization core of the
tma-starter-app backend (FastAPI + SQLAlchemy), shallowly embedded in Lean.

The embedding follows `backend/auth.py`, `backend/routes/auth.py`,
`backend/routes/users.py` and `backend/routes/groups.py`.  Library
primitives that live outside the repository (python-jose JWTs, the bcrypt
hasher, SQLAlchemy result extraction) are modelled by executable Lean
functions faithful to their documented contracts.  SHA-256 is implemented
in full (FIPS 180-4, validated against the standard test vectors), so the
byte-level behavior of the password pre-hash — including NUL bytes in raw
digests, which the bcrypt library rejects with ValueError — is exact;
only the bcrypt EksBlowfish core itself is idealized as an injective
encoding of salt and input, matching the specification wording "with
overwhelming probability" for collision events.
-/

deriving instance DecidableEq for Except

set_option maxRecDepth 100000

namespace Tma

/-- Errors a route body can surface: a FastAPI HTTPException with status
code and detail string, the ValueError raised by bcrypt on a malformed
stored hash, and the MultipleResultsFound error raised by the SQLAlchemy
method scalar_one_or_none when the query returned more than one row.
The latter two are not caught anywhere in the sources, so they escape the
handler (the framework turns them into a 500 response). -/
inductive PyError
  | http (status : Nat) (detail : String)
  | valueError
  | multipleResultsFound
  deriving DecidableEq, Repr

/-- JSON claim values that occur in the tokens the sources build: strings
and integers (timestamps, user ids). -/
inductive ClaimValue
  | str (s : String)
  | num (n : Int)
  deriving DecidableEq, Repr

/-- A JWT payload: a Python dict of claims, modelled as an association
list whose lookup takes the first binding of a key. -/
abbrev Claims := List (String × ClaimValue)

/-- Dict lookup, payload.get(k): the value of the first binding of k. -/
def Claims.get : Claims → String → Option ClaimValue
  | [], _ => none
  | p :: rest, k => if p.1 = k then some p.2 else Claims.get rest k

/-- Dict update, d[k] = v: drop the old binding of k, add the new one. -/
def setClaim (c : Claims) (k : String) (v : ClaimValue) : Claims :=
  c.filter (fun p => p.1 ≠ k) ++ [(k, v)]

/-- The configured signing secret of `auth.py` (the shipped default). -/
def SECRET_KEY : String := "your-secret-key-change-in-production"

/-- Session token lifetime, in minutes (`auth.py`). -/
def ACCESS_TOKEN_EXPIRE_MINUTES : Int := 30

/-- A compact signed token as produced by jose jwt.encode: the payload
together with the key it was signed with.  Carrying the signing key is the
standard idealization of an unforgeable MAC: decoding with a key succeeds
exactly when it is the signing key. -/
structure Jwt where
  payload : Claims
  key : String
  deriving DecidableEq, Repr

/-- jose jwt.encode(payload, key, algorithm): sign the payload. -/
def jwtEncode (payload : Claims) (key : String) : Jwt :=
  ⟨payload, key⟩

/-- The failure kinds of jose jwt.decode relevant here; both are
subclasses of JWTError in the library. -/
inductive JwtError
  | invalidSignature
  | expired
  deriving DecidableEq, Repr

/-- jose jwt.decode(token, key, algorithms): check the signature first,
then the registered exp claim (with zero leeway the library raises
ExpiredSignatureError exactly when exp < now), then return the payload. -/
def jwtDecode (tok : Jwt) (key : String) (now : Int) : Except JwtError Claims :=
  if tok.key = key then
    match tok.payload.get "exp" with
    | some (.num exp) => if exp < now then .error .expired else .ok tok.payload
    | _ => .ok tok.payload
  else .error .invalidSignature

/-- create_access_token of `auth.py`: copy the claims, compute the
absolute expiry from the optional delta (default 30 minutes), store it
under exp and sign with the process-wide secret.  The clock value now
stands for datetime.utcnow(). -/
def create_access_token (data : Claims) (expires_delta : Option Int) (now : Int) : Jwt :=
  let expire : Int :=
    match expires_delta with
    | some d => now + d
    | none => now + ACCESS_TOKEN_EXPIRE_MINUTES * 60
  jwtEncode (setClaim data "exp" (.num expire)) SECRET_KEY

/-- create_verification_token of `auth.py`: purpose-tagged claims with a
24 hour lifetime. -/
def create_verification_token (user_id : Int) (email : String) (now : Int) : Jwt :=
  create_access_token
    [("user_id", .num user_id), ("email", .str email),
     ("type", .str "email_verification")]
    (some (24 * 3600)) now

/-- verify_verification_token of `auth.py`: decode with the secret; any
JWTError yields None; a decoded payload whose type claim is not
email_verification also yields None. -/
def verify_verification_token (token : Jwt) (now : Int) : Option Claims :=
  match jwtDecode token SECRET_KEY now with
  | .error _ => none
  | .ok payload =>
      if payload.get "type" = some (.str "email_verification") then some payload
      else none

/-- create_password_reset_token of `auth.py`: purpose-tagged claims with
a 1 hour lifetime. -/
def create_password_reset_token (user_id : Int) (email : String) (now : Int) : Jwt :=
  create_access_token
    [("user_id", .num user_id), ("email", .str email),
     ("type", .str "password_reset")]
    (some 3600) now

/-- verify_password_reset_token of `auth.py`: decode with the secret; any
JWTError yields None; a decoded payload whose type claim is not
password_reset also yields None. -/
def verify_password_reset_token (token : Jwt) (now : Int) : Option Claims :=
  match jwtDecode token SECRET_KEY now with
  | .error _ => none
  | .ok payload =>
      if payload.get "type" = some (.str "password_reset") then some payload
      else none

/-- UTF-8 encoding of one unicode scalar value, as in CPython
str.encode("utf-8"). -/
def utf8EncodeChar (c : Char) : List Nat :=
  let n := c.toNat
  if n < 0x80 then [n]
  else if n < 0x800 then
    [0xC0 ||| (n >>> 6), 0x80 ||| (n &&& 0x3F)]
  else if n < 0x10000 then
    [0xE0 ||| (n >>> 12), 0x80 ||| ((n >>> 6) &&& 0x3F), 0x80 ||| (n &&& 0x3F)]
  else
    [0xF0 ||| (n >>> 18), 0x80 ||| ((n >>> 12) &&& 0x3F),
     0x80 ||| ((n >>> 6) &&& 0x3F), 0x80 ||| (n &&& 0x3F)]

/-- password.encode("utf-8"): the UTF-8 bytes of the string. -/
def utf8Bytes (s : String) : List Nat :=
  (s.data.map utf8EncodeChar).flatten

/-- Rotate a 32-bit word right by n bits. -/
def rotr32 (x n : Nat) : Nat :=
  ((x >>> n) ||| (x <<< (32 - n))) % 4294967296

/-- Big-endian byte rendering of x on n bytes. -/
def toBytesBE : Nat → Nat → List Nat
  | 0, _ => []
  | n + 1, x => toBytesBE n (x / 256) ++ [x % 256]

/-- SHA-256 padding: 0x80, zeros up to 56 mod 64, 8-byte bit length. -/
def sha256Pad (msg : List Nat) : List Nat :=
  let len := msg.length
  msg ++ [0x80] ++ List.replicate ((119 - len % 64) % 64) 0 ++ toBytesBE 8 (len * 8)

/-- Group bytes into big-endian 32-bit words. -/
def bytesToWords : List Nat → List Nat
  | a :: b :: c :: d :: rest =>
      (((a * 256 + b) * 256 + c) * 256 + d) :: bytesToWords rest
  | _ => []

/-- The SHA-256 round constants (FIPS 180-4). -/
def sha256K : List Nat :=
  [1116352408, 1899447441, 3049323471, 3921009573, 961987163, 1508970993,
   2453635748, 2870763221, 3624381080, 310598401, 607225278, 1426881987,
   1925078388, 2162078206, 2614888103, 3248222580, 3835390401, 4022224774,
   264347078, 604807628, 770255983, 1249150122, 1555081692, 1996064986,
   2554220882, 2821834349, 2952996808, 3210313671, 3336571891, 3584528711,
   113926993, 338241895, 666307205, 773529912, 1294757372, 1396182291,
   1695183700, 1986661051, 2177026350, 2456956037, 2730485921, 2820302411,
   3259730800, 3345764771, 3516065817, 3600352804, 4094571909, 275423344,
   430227734, 506948616, 659060556, 883997877, 958139571, 1322822218,
   1537002063, 1747873779, 1955562222, 2024104815, 2227730452, 2361852424,
   2428436474, 2756734187, 3204031479, 3329325298]

/-- The SHA-256 initial hash value. -/
def sha256H0 : List Nat :=
  [1779033703, 3144134277, 1013904242, 2773480762, 1359893119, 2600822924,
   528734635, 1541459225]

/-- One message-schedule extension step: append the word whose index is
the current length. -/
def scheduleStep (ws : List Nat) : List Nat :=
  let i := ws.length
  let w15 := ws.getD (i - 15) 0
  let w2 := ws.getD (i - 2) 0
  let w16 := ws.getD (i - 16) 0
  let w7 := ws.getD (i - 7) 0
  let s0 := (rotr32 w15 7) ^^^ (rotr32 w15 18) ^^^ (w15 >>> 3)
  let s1 := (rotr32 w2 17) ^^^ (rotr32 w2 19) ^^^ (w2 >>> 10)
  ws ++ [(w16 + s0 + w7 + s1) % 4294967296]

/-- Extend the message schedule by n more words. -/
def extendSchedule : Nat → List Nat → List Nat
  | 0, ws => ws
  | n + 1, ws => extendSchedule n (scheduleStep ws)

/-- The 64 compression rounds over constants, schedule and state. -/
def compressRounds : List Nat → List Nat → List Nat → List Nat
  | k :: ks, w :: ws, [a, b, c, d, e, f, g, h] =>
      let s1 := (rotr32 e 6) ^^^ (rotr32 e 11) ^^^ (rotr32 e 25)
      let ch := g ^^^ (e &&& (f ^^^ g))
      let t1 := (h + s1 + ch + k + w) % 4294967296
      let s0 := (rotr32 a 2) ^^^ (rotr32 a 13) ^^^ (rotr32 a 22)
      let mj := (a &&& b) ||| (c &&& (a ||| b))
      let t2 := (s0 + mj) % 4294967296
      compressRounds ks ws
        [(t1 + t2) % 4294967296, a, b, c, (d + t1) % 4294967296, e, f, g]
  | _, _, st => st

/-- Compress one 16-word block into the running hash. -/
def sha256Compress (h : List Nat) (block : List Nat) : List Nat :=
  let st := compressRounds sha256K (extendSchedule 48 block) h
  (h.zip st).map (fun p => (p.1 + p.2) % 4294967296)

/-- Fold the 16-word blocks of the padded message into the hash; the
fuel argument (the word count) bounds the recursion. -/
def processBlocks : Nat → List Nat → List Nat → List Nat
  | 0, h, _ => h
  | _ + 1, h, [] => h
  | n + 1, h, ws => processBlocks n (sha256Compress h (ws.take 16)) (ws.drop 16)

/-- hashlib.sha256(msg).digest(): the 32 digest bytes of SHA-256
(FIPS 180-4, validated against the standard test vectors). -/
def sha256Bytes (msg : List Nat) : List Nat :=
  let ws := bytesToWords (sha256Pad msg)
  (processBlocks ws.length sha256H0 ws).foldr (fun w acc => toBytesBE 4 w ++ acc) []

/-- The helper of `auth.py` that pre-hashes a password with SHA-256: the
raw 32-byte binary digest that bcrypt then receives. -/
def prehash_password (password : String) : List Nat :=
  sha256Bytes (utf8Bytes password)

/-- The space of stored password-hash strings, split the way the bcrypt
library splits it: strings in the modular-crypt format bcrypt emits
(carrying the salt and the raw digest), and every other string. -/
inductive HashedPassword
  | wellFormed (salt : Nat) (digest : Nat)
  | malformed (raw : String)
  deriving DecidableEq, Repr

/-- Base-256 packing of a byte list (with a leading 1 so lengths stay
unambiguous): the number the bcrypt core is keyed with. -/
def bytesKey (bs : List Nat) : Nat :=
  bs.foldl (fun acc b => acc * 256 + b) 1

/-- The bcrypt EksBlowfish core keyed by salt and password bytes,
idealized as an injective pairing of the two. -/
def bcryptCore (salt : Nat) (data : List Nat) : Nat :=
  Nat.pair salt (bytesKey data)

/-- bcrypt.hashpw(data, salt): the library first rejects a password
containing a NUL byte with ValueError("password may not contain NUL
bytes"), then produces a well-formed digest string recording the salt
and the keyed hash of the data. -/
def hashpw (data : List Nat) (salt : Nat) : Except PyError HashedPassword :=
  if data.contains 0 then .error .valueError
  else .ok (.wellFormed salt (bcryptCore salt data))

/-- bcrypt.checkpw(data, stored): the library first rejects a NUL byte
in either argument with ValueError, then re-hashes with the salt taken
from the stored string and compares in constant time; a stored string
that is not a well-formed bcrypt hash raises ValueError (invalid salt)
instead of returning. -/
def checkpw (data : List Nat) (stored : HashedPassword) : Except PyError Bool :=
  if data.contains 0 then .error .valueError
  else
    match stored with
    | .wellFormed salt digest => .ok (decide (digest = bcryptCore salt data))
    | .malformed _ => .error .valueError

/-- get_password_hash of `auth.py`: SHA-256 pre-hash, then bcrypt with a
fresh salt (the salt drawn by bcrypt.gensalt is passed explicitly).
Nothing catches the ValueError hashpw raises when the raw digest
contains a NUL byte, so it propagates to the caller. -/
def get_password_hash (password : String) (salt : Nat) :
    Except PyError HashedPassword :=
  hashpw (prehash_password password) salt

/-- verify_password of `auth.py`: pre-hash the candidate and hand it with
the stored string to bcrypt.checkpw; nothing catches the ValueError that
checkpw raises on a NUL byte in the digest or a malformed stored
string. -/
def verify_password (plain_password : String) (hashed_password : HashedPassword) :
    Except PyError Bool :=
  checkpw (prehash_password plain_password) hashed_password

/-- The stored hash a successful get_password_hash call produces: the
well-formed bcrypt string for the password digest and the salt. -/
def storedHash (password : String) (salt : Nat) : HashedPassword :=
  .wellFormed salt (bcryptCore salt (prehash_password password))

/-- A row of the roles lookup table (`models/role.py`). -/
structure Role where
  id : Nat
  name : String
  deriving DecidableEq, Repr

/-- A row of the users table (`models/user.py`) with its role
relationship joined-loaded, the way every code path in the sources loads
it (joinedload(User.role)), so the role field is always populated. -/
structure User where
  id : Nat
  username : String
  email : String
  hashed_password : HashedPassword
  role : Role
  is_active : Bool
  email_verified : Bool
  deriving DecidableEq, Repr

/-- A row of the groups table (`models/group.py`). -/
structure Group where
  id : Nat
  name : String
  created_by : Nat
  deriving DecidableEq, Repr

/-- A row of the user_groups membership table (`models/user_group.py`):
a (user, group) pair carrying an independent membership role string. -/
structure UserGroup where
  user_id : Nat
  group_id : Nat
  role : String
  deriving DecidableEq, Repr

/-- The persisted state the claims touch: the four tables. -/
structure Db where
  roles : List Role
  users : List User
  groups : List Group
  memberships : List UserGroup
  deriving DecidableEq, Repr

/-- SQLAlchemy Result.scalar_one_or_none(): None for zero rows, the row
for one, and a raised MultipleResultsFound error for two or more. -/
def scalar_one_or_none {α : Type} (rows : List α) : Except PyError (Option α) :=
  match rows with
  | [] => .ok none
  | [x] => .ok (some x)
  | _ => .error .multipleResultsFound

/-- get_user_by_username of `auth.py`: select by the unique username
column, role joined-loaded. -/
def get_user_by_username (username : String) (db : Db) : Except PyError (Option User) :=
  scalar_one_or_none (db.users.filter (fun u => u.username = username))

/-- get_user_by_email of `auth.py`: select by the unique email column. -/
def get_user_by_email (email : String) (db : Db) : Except PyError (Option User) :=
  scalar_one_or_none (db.users.filter (fun u => u.email = email))

/-- get_user_by_id of `auth.py`: select by primary key. -/
def get_user_by_id (user_id : Nat) (db : Db) : Except PyError (Option User) :=
  scalar_one_or_none (db.users.filter (fun u => u.id = user_id))

/-- authenticate_user of `auth.py`: look the user up by username and
check the password; an unknown username and a wrong password collapse to
the same None result. -/
def authenticate_user (username password : String) (db : Db) :
    Except PyError (Option User) := do
  let userOpt ← get_user_by_username username db
  match userOpt with
  | none => pure none
  | some user => do
      let ok ← verify_password password user.hashed_password
      if ok then pure (some user) else pure none

/-- The request body of POST /auth/login (`schemas/auth.py`). -/
structure UserLogin where
  username : String
  password : String
  deriving DecidableEq, Repr

/-- The login route of `routes/auth.py`: authenticate (401 on failure
with no distinction between unknown user and wrong password), reject a
disabled account with 403, then issue a 30 minute session token whose
claims are the username, user id and system role name. -/
def login (login_data : UserLogin) (db : Db) (now : Int) : Except PyError Jwt := do
  let userOpt ← authenticate_user login_data.username login_data.password db
  match userOpt with
  | none => throw (.http 401 "Incorrect username or password")
  | some user =>
      if user.is_active = false then
        throw (.http 403 "Your account has been disabled. Please contact an administrator.")
      else
        pure (create_access_token
          [("sub", .str user.username), ("user_id", .num (user.id : Int)),
           ("role", .str user.role.name)]
          (some (ACCESS_TOKEN_EXPIRE_MINUTES * 60)) now)

/-- The single 401 raised for every token failure in get_current_user. -/
def credentials_exception : PyError :=
  .http 401 "Could not validate credentials"

/-- get_current_user of `auth.py`: decode the bearer token (any JWTError
becomes the 401), read the sub claim, and load the user by username with
the role joined.  A missing sub raises the 401 directly; a non-string sub
matches no username row and reaches the same 401.  No check of the active
flag happens here. -/
def get_current_user (token : Jwt) (db : Db) (now : Int) : Except PyError User :=
  match jwtDecode token SECRET_KEY now with
  | .error _ => .error credentials_exception
  | .ok payload =>
      match payload.get "sub" with
      | some (.str username) => do
          let uOpt ← scalar_one_or_none (db.users.filter (fun u => u.username = username))
          match uOpt with
          | none => throw credentials_exception
          | some u => pure u
      | _ => .error credentials_exception

/-- get_current_active_user of `auth.py`: despite its name it returns the
resolved user unchanged, with no active-flag check. -/
def get_current_active_user (token : Jwt) (db : Db) (now : Int) : Except PyError User :=
  get_current_user token db now

/-- require_admin of `auth.py`, applied to the already-resolved caller:
403 unless the system role is admin.  In the embedding the role
relationship is always populated, so the role-missing 500 branch of the
source cannot arise. -/
def require_admin (current_user : User) : Except PyError User :=
  if current_user.role.name = "admin" then .ok current_user
  else .error (.http 403 "Access denied. Required role: admin")

/-- require_group_manager of `auth.py`, applied to the already-resolved
caller: 403 unless the system role is admin or manager. -/
def require_group_manager (current_user : User) : Except PyError User :=
  if ["admin", "manager"].contains current_user.role.name then .ok current_user
  else .error (.http 403 "Access denied. Required role: admin or manager")

/-- Python str.lower(), character by character. -/
def pyLower (s : String) : String :=
  ⟨s.data.map Char.toLower⟩

/-- The whitespace characters Python str.strip() removes (the ASCII
ones, which are the only ones the routes can meet in role names). -/
def isPySpace (c : Char) : Bool :=
  c = ' ' ∨ c = '\t' ∨ c = '\n' ∨ c = '\r' ∨ c = '\x0b' ∨ c = '\x0c'

/-- Python str.strip(): drop whitespace from both ends. -/
def pyStrip (s : String) : String :=
  ⟨((s.data.dropWhile isPySpace).reverse.dropWhile isPySpace).reverse⟩

/-- The valid system role names of `routes/users.py` and
`routes/auth.py`. -/
def valid_system_roles : List String :=
  ["admin", "manager", "user"]

/-- PATCH /users/\x7buser_id\x7d/role of `routes/users.py`: admin gate,
normalize and validate the requested role name, load the role row, load
the target user, refuse a self-targeted change with a 400 before any
write, then update the role foreign key. -/
def update_user_role (user_id : Nat) (requestRole : String) (current_user : User)
    (db : Db) : Except PyError Db := do
  let _ ← require_admin current_user
  let role_name := pyStrip (pyLower requestRole)
  if (valid_system_roles.contains role_name) = false then
    throw (.http 400 "Invalid role. Must be one of: admin, manager, user")
  let roleOpt ← scalar_one_or_none (db.roles.filter (fun r => r.name = role_name))
  match roleOpt with
  | none => throw (.http 500 ("Role \x27" ++ role_name ++ "\x27 not found in database"))
  | some role => do
      let userOpt ← get_user_by_id user_id db
      match userOpt with
      | none => throw (.http 404 "User not found")
      | some user => do
          if user.id = current_user.id then
            throw (.http 400 "You cannot change your own role")
          pure { db with
                 users := db.users.map (fun u =>
                   if u.id = user_id then { u with role := role } else u) }

/-- PATCH /users/\x7buser_id\x7d/status of `routes/users.py`: admin gate,
load the target user, refuse a self-targeted disable with a 400 before
any write, then set the active flag to the requested value. -/
def update_user_status (user_id : Nat) (requestActive : Bool) (current_user : User)
    (db : Db) : Except PyError Db := do
  let _ ← require_admin current_user
  let userOpt ← get_user_by_id user_id db
  match userOpt with
  | none => throw (.http 404 "User not found")
  | some user => do
      if user.id = current_user.id then
        throw (.http 400 "You cannot disable your own account")
      pure { db with
             users := db.users.map (fun u =>
               if u.id = user_id then { u with is_active := requestActive } else u) }

/-- DELETE /users/\x7buser_id\x7d of `routes/users.py`: admin gate, load
the target user, refuse a self-targeted delete with a 400, then delete
the row. -/
def delete_user (user_id : Nat) (current_user : User) (db : Db) :
    Except PyError Db := do
  let _ ← require_admin current_user
  let userOpt ← get_user_by_id user_id db
  match userOpt with
  | none => throw (.http 404 "User not found")
  | some user => do
      if user.id = current_user.id then
        throw (.http 400 "You cannot delete your own account")
      pure { db with users := db.users.filter (fun u => u.id ≠ user_id) }

/-- The request body of POST /auth/register (`schemas/auth.py`): the role
field is optional with Pydantic default "user"; a JSON null arrives as
none. -/
structure RegisterInput where
  username : String
  email : String
  password : String
  role : Option String
  deriving DecidableEq, Repr

/-- The role normalization of the register route: the lowercased,
stripped role field when it is present and not blank, otherwise the
default "user".  Python truthiness makes both the empty and the
all-whitespace string fall to the default. -/
def registerRoleName (role : Option String) : String :=
  match role with
  | none => "user"
  | some s => if s = "" then "user"
              else if pyStrip s = "" then "user"
              else pyStrip (pyLower s)

/-- The next autoincremented primary key for the users table. -/
def nextUserId (db : Db) : Nat :=
  (db.users.map (fun u => u.id)).foldr max 0 + 1

/-- POST /auth/register of `routes/auth.py`.  The route has no
authentication dependency at all: any anonymous caller reaches it.  It
strips the three text fields, rejects blanks, normalizes the optional
role field, requires it to name one of the three system roles, loads the
role row, rejects duplicate username or email, and creates the user with
the requested role, a hashed password, and the active and email-verified
flags set.  The fresh bcrypt salt is passed explicitly. -/
def register (inp : RegisterInput) (salt : Nat) (db : Db) :
    Except PyError (Db × User) := do
  let username := pyStrip inp.username
  let email := pyStrip inp.email
  let password := pyStrip inp.password
  if username = "" then throw (.http 400 "Username cannot be empty")
  if email = "" then throw (.http 400 "Email cannot be empty")
  if password = "" then throw (.http 400 "Password cannot be empty")
  let role_name := registerRoleName inp.role
  if (valid_system_roles.contains role_name) = false then
    throw (.http 400 "Invalid role. Must be one of: admin, manager, user")
  let roleOpt ← scalar_one_or_none (db.roles.filter (fun r => r.name = role_name))
  match roleOpt with
  | none => throw (.http 500 ("Role \x27" ++ role_name ++ "\x27 not found in database"))
  | some role => do
      let existingUser ← get_user_by_username username db
      if existingUser.isSome then
        throw (.http 400 "Username already registered")
      let existingEmail ← get_user_by_email email db
      if existingEmail.isSome then
        throw (.http 400 "Email already registered")
      let hashed ← get_password_hash password salt
      let newUser : User :=
        { id := nextUserId db
          username := username
          email := email
          hashed_password := hashed
          role := role
          is_active := true
          email_verified := true }
      pure ({ db with users := db.users ++ [newUser] }, newUser)

/-- can_manage_group of `routes/groups.py`: managers and admins. -/
def can_manage_group (user : User) : Bool :=
  ["admin", "manager"].contains user.role.name

/-- get_group_or_404 of `routes/groups.py`: load the group (404 when
absent), let managers and admins through, and otherwise require an
existing membership of the caller (403 when absent). -/
def get_group_or_404 (group_id : Nat) (db : Db) (current_user : User) :
    Except PyError Group := do
  let groupOpt ← scalar_one_or_none (db.groups.filter (fun g => g.id = group_id))
  match groupOpt with
  | none => throw (.http 404 ("Group with ID " ++ toString group_id ++ " not found"))
  | some group => do
      if can_manage_group current_user then
        pure group
      else do
        let membershipOpt ← scalar_one_or_none (db.memberships.filter
          (fun m => m.user_id = current_user.id ∧ m.group_id = group_id))
        match membershipOpt with
        | none => throw (.http 403 "You don\x27t have access to this group")
        | some _ => pure group

/-- The valid membership role names of `routes/groups.py`. -/
def valid_group_roles : List String :=
  ["member", "moderator", "owner"]

/-- PATCH /groups/\x7bgroup_id\x7d/members/\x7buser_id\x7d/role of
`routes/groups.py`: manager gate, normalize and validate the requested
membership role, access-check the group, load the membership (404 when
absent), and when the change demotes an owner, look for another owner
membership of the same group with scalar_one_or_none before updating the
row. -/
def update_member_role (group_id user_id : Nat) (bodyRole : String)
    (current_user : User) (db : Db) : Except PyError Db := do
  let _ ← require_group_manager current_user
  let role := pyStrip (pyLower bodyRole)
  if (valid_group_roles.contains role) = false then
    throw (.http 400 "Invalid role. Must be one of: member, moderator, owner")
  let _group ← get_group_or_404 group_id db current_user
  let membershipOpt ← scalar_one_or_none (db.memberships.filter
    (fun m => m.user_id = user_id ∧ m.group_id = group_id))
  match membershipOpt with
  | none => throw (.http 404 "User is not a member of this group")
  | some membership => do
      if membership.role = "owner" ∧ role ≠ "owner" then
        let otherOwner ← scalar_one_or_none (db.memberships.filter
          (fun m => m.group_id = group_id ∧ m.role = "owner" ∧ m.user_id ≠ user_id))
        if otherOwner = none then
          throw (.http 400
            "Cannot change role of the last owner. Promote another member to owner first.")
      pure { db with
             memberships := db.memberships.map (fun m =>
               if m.user_id = user_id ∧ m.group_id = group_id
               then { m with role := role } else m) }

/-- DELETE /groups/\x7bgroup_id\x7d/members/\x7buser_id\x7d of
`routes/groups.py`: manager gate, access-check the group, load the
membership (404 when absent), and when it is an owner membership, look
for another owner membership of the same group with scalar_one_or_none
before deleting the row. -/
def remove_member_from_group (group_id user_id : Nat) (current_user : User)
    (db : Db) : Except PyError Db := do
  let _ ← require_group_manager current_user
  let _group ← get_group_or_404 group_id db current_user
  let membershipOpt ← scalar_one_or_none (db.memberships.filter
    (fun m => m.user_id = user_id ∧ m.group_id = group_id))
  match membershipOpt with
  | none => throw (.http 404 "User is not a member of this group")
  | some membership => do
      if membership.role = "owner" then
        let otherOwner ← scalar_one_or_none (db.memberships.filter
          (fun m => m.group_id = group_id ∧ m.role = "owner" ∧ m.user_id ≠ user_id))
        if otherOwner = none then
          throw (.http 400 "Cannot remove the last owner from the group")
      pure { db with
             memberships := db.memberships.filter (fun m =>
               ¬ (m.user_id = user_id ∧ m.group_id = group_id)) }

/-- The user record created by a successful register call: fresh id,
stripped fields, hashed password, requested role, active and verified. -/
def registeredUser (inp : RegisterInput) (salt : Nat) (db : Db) (role : Role) : User :=
  { id := nextUserId db
    username := pyStrip inp.username
    email := pyStrip inp.email
    hashed_password := storedHash (pyStrip inp.password) salt
    role := role
    is_active := true
    email_verified := true }

/-- Fixture: the seeded user role row. -/
def userRoleW : Role := ⟨1, "user"⟩

/-- Fixture: the seeded manager role row. -/
def managerRoleW : Role := ⟨2, "manager"⟩

/-- Fixture: the seeded admin role row. -/
def adminRoleW : Role := ⟨3, "admin"⟩

/-- Fixture: an ordinary active user with a known password whose digest
is NUL-free, so the stored hash is the one get_password_hash returns. -/
def aliceW : User :=
  { id := 1, username := "alice", email := "alice@x.com",
    hashed_password := storedHash "pw123" 0,
    role := userRoleW, is_active := true, email_verified := true }

/-- Fixture: a database holding only alice. -/
def dbLoginW : Db :=
  { roles := [userRoleW], users := [aliceW], groups := [], memberships := [] }

/-- Fixture: the session token login issues for alice at instant 0. -/
def tokLoginW : Jwt :=
  create_access_token
    [("sub", .str "alice"), ("user_id", .num 1), ("role", .str "user")]
    (some (ACCESS_TOKEN_EXPIRE_MINUTES * 60)) 0

/-- Fixture: a disabled user with a known password (NUL-free digest). -/
def bobW : User :=
  { id := 2, username := "bob", email := "bob@x.com",
    hashed_password := storedHash "pw123" 0,
    role := userRoleW, is_active := false, email_verified := true }

/-- Fixture: a database holding only the disabled bob. -/
def dbInactiveW : Db :=
  { roles := [userRoleW], users := [bobW], groups := [], memberships := [] }

/-- Fixture: an active admin principal (NUL-free digest). -/
def rootW : User :=
  { id := 9, username := "root", email := "root@x.com",
    hashed_password := storedHash "rootpw" 0,
    role := adminRoleW, is_active := true, email_verified := true }

/-- Fixture: a database with the three seeded roles and the admin. -/
def dbAdminW : Db :=
  { roles := [userRoleW, managerRoleW, adminRoleW], users := [rootW],
    groups := [], memberships := [] }

/-- Fixture: a database with the three seeded roles and no users. -/
def dbRegW : Db :=
  { roles := [userRoleW, managerRoleW, adminRoleW], users := [],
    groups := [], memberships := [] }

/-- Fixture: a one-group database with a chosen membership table,
administered by the admin principal. -/
def dbGroupW (ms : List UserGroup) : Db :=
  { roles := [adminRoleW], users := [rootW], groups := [⟨1, "g", 9⟩],
    memberships := ms }

/-- Char.toNat is injective: a character is determined by its code
point. -/
theorem get_password_hash_ok (p : String) (salt : Nat) (h : HashedPassword)
    (hok : get_password_hash p salt = .ok h) :
    (prehash_password p).contains 0 = false ∧ h = storedHash p salt := by
  unfold get_password_hash hashpw at hok
  by_cases hc : (prehash_password p).contains 0 = true
  · rw [if_pos hc] at hok
    simp at hok
  · rw [if_neg hc] at hok
    exact ⟨Bool.not_eq_true _ ▸ hc, (Except.ok.inj hok).symm⟩

/-- A password whose hashing succeeded verifies against the stored hash:
the NUL check passes again and the recomputed keyed hash matches. -/
theorem verify_password_of_ok (p : String) (salt : Nat) (h : HashedPassword)
    (hok : get_password_hash p salt = .ok h) :
    verify_password p h = .ok true := by
  obtain ⟨hnul, hh⟩ := get_password_hash_ok p salt h hok
  rw [hh]
  unfold verify_password checkpw storedHash
  rw [hnul]
  simp

/-- C4: the round-trip claim fails on the code.  The raw SHA-256 digest
of the password "p3" contains a NUL byte (offset 2), so bcrypt rejects it
and get_password_hash raises ValueError instead of returning a hash, and
verify_password with that password raises against every stored digest;
for a password whose digest is NUL-free (such as "pw123") hashing
succeeds, the round-trip verifies true, and a different NUL-free password
verifies false against the stored hash. -/
theorem password_hash_nul_bug :
    (prehash_password "p3").contains 0 = true ∧
    get_password_hash "p3" 0 = .error PyError.valueError ∧
    (∀ h : HashedPassword, verify_password "p3" h = .error PyError.valueError) ∧
    (prehash_password "pw123").contains 0 = false ∧
    get_password_hash "pw123" 0 = .ok (storedHash "pw123" 0) ∧
    verify_password "pw123" (storedHash "pw123" 0) = .ok true ∧
    verify_password "pw124" (storedHash "pw123" 0) = .ok false := by
  refine ⟨by decide, by decide, ?_, by decide, by decide, by decide, by decide⟩
  intro h
  unfold verify_password checkpw
  rw [(by decide : (prehash_password "p3").contains 0 = true)]
  rfl

/-- C5 as stated is false: on a malformed stored digest, verify_password
raises the ValueError coming out of bcrypt.checkpw instead of returning
false. -/
theorem verify_password_malformed_raises :
    verify_password "pw123" (HashedPassword.malformed "not-a-bcrypt-hash") =
      .error PyError.valueError := by
  decide

/-- C5 amended: for every plaintext and every malformed stored digest,
verify_password propagates the ValueError raised by bcrypt (nothing in
the source catches it), rather than returning false.  Both exit paths of
checkpw raise it: the NUL check when the digest of p contains a NUL
byte, and the salt parsing of the malformed stored string otherwise. -/
theorem verify_password_malformed_spec (p raw : String) :
    verify_password p (HashedPassword.malformed raw) = .error PyError.valueError := by
  unfold verify_password checkpw
  split
  · rfl
  · rfl

/-- Looking up the key just written by setClaim returns its value. -/
theorem get_setClaim_self (c : Claims) (k : String) (v : ClaimValue) :
    Claims.get (setClaim c k v) k = some v := by
  induction c with
  | nil => simp [setClaim, Claims.get]
  | cons p t ih =>
      by_cases h : p.1 = k
      · simpa [setClaim, List.filter_cons, h] using ih
      · simpa [setClaim, List.filter_cons, h, Claims.get] using ih

/-- Looking up any other key after setClaim sees the original dict. -/
theorem get_setClaim_ne (c : Claims) (k : String) (v : ClaimValue) (k' : String)
    (h : k' ≠ k) : Claims.get (setClaim c k v) k' = Claims.get c k' := by
  induction c with
  | nil =>
      simp [setClaim, Claims.get]
      exact fun e => h e.symm
  | cons p t ih =>
      by_cases hp : p.1 = k
      · have hp' : p.1 ≠ k' := by rw [hp]; exact fun e => h e.symm
        simp only [Claims.get, if_neg hp']
        simpa [setClaim, List.filter_cons, hp] using ih
      · by_cases hk' : p.1 = k'
        · simp [setClaim, List.filter_cons, hp, Claims.get, hk', h]
        · simp only [Claims.get, if_neg hk']
          simpa [setClaim, List.filter_cons, hp, Claims.get, hk'] using ih

/-- A successful jose decode returns the payload of the token
unchanged. -/
theorem jwtDecode_ok_payload (tok : Jwt) (key : String) (now : Int) (p : Claims)
    (h : jwtDecode tok key now = .ok p) : p = tok.payload := by
  unfold jwtDecode at h
  split at h
  · split at h
    · split at h
      · simp at h
      · exact (Except.ok.inj h).symm
    · exact (Except.ok.inj h).symm
  · simp at h

/-- Decoding an access token with the signing secret before its expiry
instant succeeds and returns the claims with the computed expiry
added. -/
theorem jwtDecode_create_access_token (data : Claims) (ttl issuedAt now : Int)
    (h : now ≤ issuedAt + ttl) :
    jwtDecode (create_access_token data (some ttl) issuedAt) SECRET_KEY now =
      .ok (setClaim data "exp" (.num (issuedAt + ttl))) := by
  unfold create_access_token jwtEncode jwtDecode
  simp [get_setClaim_self, not_lt.mpr h]

/-- Decoding an access token with the signing secret after its expiry
instant fails with ExpiredSignatureError. -/
theorem jwtDecode_create_access_token_expired (data : Claims) (ttl issuedAt now : Int)
    (h : issuedAt + ttl < now) :
    jwtDecode (create_access_token data (some ttl) issuedAt) SECRET_KEY now =
      .error .expired := by
  unfold create_access_token jwtEncode jwtDecode
  simp [get_setClaim_self, h]

/-- A token whose payload carries no email_verification purpose tag is
rejected by verify_verification_token, whatever the clock says. -/
theorem verify_verification_token_none (tok : Jwt) (now : Int)
    (h : Claims.get tok.payload "type" ≠ some (.str "email_verification")) :
    verify_verification_token tok now = none := by
  unfold verify_verification_token
  cases hd : jwtDecode tok SECRET_KEY now with
  | error e => rfl
  | ok payload =>
      rw [jwtDecode_ok_payload tok SECRET_KEY now payload hd]
      show (if Claims.get tok.payload "type" = some (ClaimValue.str "email_verification")
            then some tok.payload else none) = none
      exact if_neg h

/-- A token whose payload carries no password_reset purpose tag is
rejected by verify_password_reset_token, whatever the clock says. -/
theorem verify_password_reset_token_none (tok : Jwt) (now : Int)
    (h : Claims.get tok.payload "type" ≠ some (.str "password_reset")) :
    verify_password_reset_token tok now = none := by
  unfold verify_password_reset_token
  cases hd : jwtDecode tok SECRET_KEY now with
  | error e => rfl
  | ok payload =>
      rw [jwtDecode_ok_payload tok SECRET_KEY now payload hd]
      show (if Claims.get tok.payload "type" = some (ClaimValue.str "password_reset")
            then some tok.payload else none) = none
      exact if_neg h

/-- C6: for every claim map and positive ttl, decoding the token built by
create_access_token with the same secret key at any instant up to the
computed expiry succeeds, and every claim of the map other than the added
exp timestamp comes back unchanged. -/
theorem access_token_roundtrip (c : Claims) (ttl issuedAt now : Int)
    (_hpos : 0 < ttl) (hnow : now ≤ issuedAt + ttl) :
    jwtDecode (create_access_token c (some ttl) issuedAt) SECRET_KEY now =
      .ok (setClaim c "exp" (.num (issuedAt + ttl))) ∧
    ∀ k, k ≠ "exp" →
      Claims.get (setClaim c "exp" (.num (issuedAt + ttl))) k = Claims.get c k := by
  refine ⟨jwtDecode_create_access_token c ttl issuedAt now hnow, ?_⟩
  intro k hk
  exact get_setClaim_ne c "exp" _ k hk

/-- Concrete instance of access_token_roundtrip right at issuance. -/
theorem access_token_roundtrip_witness :
    (0 : Int) < 1800 ∧
    jwtDecode (create_access_token [("sub", ClaimValue.str "alice")] (some 1800) 0)
        SECRET_KEY 0 =
      .ok (setClaim [("sub", ClaimValue.str "alice")] "exp" (.num (0 + 1800))) :=
  ⟨by decide,
    (access_token_roundtrip [("sub", ClaimValue.str "alice")] 1800 0 0
      (by decide) (by decide)).1⟩

/-- C7: a password-reset token is rejected by the email-verification
verifier and an email-verification token is rejected by the
password-reset verifier, at every clock instant (in particular while the
token is unexpired and correctly signed), because the embedded purpose
tag differs from the expected one. -/
theorem purpose_cross_rejection (user_id : Int) (email : String) (issuedAt now : Int) :
    verify_verification_token (create_password_reset_token user_id email issuedAt) now
      = none ∧
    verify_password_reset_token (create_verification_token user_id email issuedAt) now
      = none := by
  constructor
  · apply verify_verification_token_none
    show Claims.get (setClaim
        [("user_id", .num user_id), ("email", .str email),
         ("type", .str "password_reset")] "exp" (.num (issuedAt + 3600))) "type"
      ≠ some (.str "email_verification")
    rw [get_setClaim_ne _ _ _ _ (by decide)]
    simp [Claims.get]
  · apply verify_password_reset_token_none
    show Claims.get (setClaim
        [("user_id", .num user_id), ("email", .str email),
         ("type", .str "email_verification")] "exp" (.num (issuedAt + 24 * 3600))) "type"
      ≠ some (.str "password_reset")
    rw [get_setClaim_ne _ _ _ _ (by decide)]
    simp [Claims.get]

/-- C9: once the clock is past the computed expiry, decoding the token
fails with the Expired error, every purpose verifier and the session
resolver reject it, and the signature is still checked before expiry (a
wrong key reports InvalidSignature even on an expired token). -/
theorem access_token_expiry (c : Claims) (ttl issuedAt now : Int) (db : Db)
    (_hpos : 0 < ttl) (hlate : issuedAt + ttl < now) :
    jwtDecode (create_access_token c (some ttl) issuedAt) SECRET_KEY now =
      .error .expired ∧
    verify_verification_token (create_access_token c (some ttl) issuedAt) now = none ∧
    verify_password_reset_token (create_access_token c (some ttl) issuedAt) now = none ∧
    get_current_user (create_access_token c (some ttl) issuedAt) db now =
      .error credentials_exception ∧
    (∀ key, key ≠ SECRET_KEY →
      jwtDecode (create_access_token c (some ttl) issuedAt) key now =
        .error .invalidSignature) := by
  have hd := jwtDecode_create_access_token_expired c ttl issuedAt now hlate
  refine ⟨hd, ?_, ?_, ?_, ?_⟩
  · unfold verify_verification_token
    rw [hd]
  · unfold verify_password_reset_token
    rw [hd]
  · unfold get_current_user
    rw [hd]
  · intro key hk
    have hne : ¬ (SECRET_KEY = key) := fun e => hk e.symm
    simp [create_access_token, jwtEncode, jwtDecode, hne]

/-- Concrete instance of access_token_expiry one second past expiry. -/
theorem access_token_expiry_witness :
    (0 : Int) < 60 ∧ (0 : Int) + 60 < 61 ∧
    jwtDecode (create_access_token [("sub", ClaimValue.str "bob")] (some 60) 0)
        SECRET_KEY 61 = .error .expired :=
  ⟨by decide, by decide,
    (access_token_expiry [("sub", ClaimValue.str "bob")] 60 0 61 ⟨[], [], [], []⟩
      (by decide) (by decide)).1⟩

/-- C8: a password-reset token presented to the session resolver is
rejected with the 401 credentials error (its claims carry no sub), and
every session token issued by login is rejected by both purpose-scoped
verifiers (its claims carry no purpose tag), at every clock instant — in
particular while the tokens are unexpired and correctly signed. -/
theorem token_purpose_isolation
    (user_id : Int) (email : String) (issuedAt now : Int) (db db2 : Db)
    (login_data : UserLogin) (now0 : Int) (tok : Jwt)
    (hlogin : login login_data db2 now0 = .ok tok) :
    get_current_user (create_password_reset_token user_id email issuedAt) db now =
      .error credentials_exception ∧
    verify_password_reset_token tok now = none ∧
    verify_verification_token tok now = none := by
  refine ⟨?_, ?_⟩
  · have hsub : Claims.get
        (create_password_reset_token user_id email issuedAt).payload "sub" = none := by
      show Claims.get (setClaim
        [("user_id", .num user_id), ("email", .str email),
         ("type", .str "password_reset")] "exp" (.num (issuedAt + 3600))) "sub" = none
      rw [get_setClaim_ne _ _ _ _ (by decide)]
      simp [Claims.get]
    unfold get_current_user
    cases hd : jwtDecode (create_password_reset_token user_id email issuedAt)
        SECRET_KEY now with
    | error e => rfl
    | ok payload =>
        rw [jwtDecode_ok_payload _ _ _ _ hd]
        simp [hsub]
  · unfold login at hlogin
    cases hauth : authenticate_user login_data.username login_data.password db2 with
    | error e => rw [hauth] at hlogin; simp [Bind.bind, Except.bind] at hlogin
    | ok userOpt =>
        rw [hauth] at hlogin
        simp only [Bind.bind, Except.bind] at hlogin
        cases userOpt with
        | none => simp [throw, throwThe, MonadExceptOf.throw] at hlogin
        | some user =>
            by_cases hact : user.is_active = false
            · simp [hact, throw, throwThe, MonadExceptOf.throw] at hlogin
            · have htok : create_access_token
                  [("sub", .str user.username), ("user_id", .num (user.id : Int)),
                   ("role", .str user.role.name)]
                  (some (ACCESS_TOKEN_EXPIRE_MINUTES * 60)) now0 = tok := by
                replace hlogin : (if user.is_active = false then
                    throw (PyError.http 403
                      "Your account has been disabled. Please contact an administrator.")
                  else pure (create_access_token
                    [("sub", ClaimValue.str user.username),
                     ("user_id", ClaimValue.num (user.id : Int)),
                     ("role", ClaimValue.str user.role.name)]
                    (some (ACCESS_TOKEN_EXPIRE_MINUTES * 60)) now0) :
                    Except PyError Jwt) = Except.ok tok := hlogin
                rw [if_neg hact] at hlogin
                exact Except.ok.inj hlogin
              rw [← htok]
              constructor
              · apply verify_password_reset_token_none
                show Claims.get (setClaim
                    [("sub", .str user.username), ("user_id", .num (user.id : Int)),
                     ("role", .str user.role.name)] "exp"
                    (.num (now0 + ACCESS_TOKEN_EXPIRE_MINUTES * 60))) "type"
                  ≠ some (.str "password_reset")
                rw [get_setClaim_ne _ _ _ _ (by decide)]
                simp [Claims.get]
              · apply verify_verification_token_none
                show Claims.get (setClaim
                    [("sub", .str user.username), ("user_id", .num (user.id : Int)),
                     ("role", .str user.role.name)] "exp"
                    (.num (now0 + ACCESS_TOKEN_EXPIRE_MINUTES * 60))) "type"
                  ≠ some (.str "email_verification")
                rw [get_setClaim_ne _ _ _ _ (by decide)]
                simp [Claims.get]

/-- Concrete instance of token_purpose_isolation: alice logs in and her
session token is rejected by both purpose-scoped verifiers. -/
theorem token_purpose_isolation_witness :
    login ⟨"alice", "pw123"⟩ dbLoginW 0 = .ok tokLoginW ∧
    verify_password_reset_token tokLoginW 10 = none ∧
    verify_verification_token tokLoginW 10 = none :=
  ⟨by decide,
    (token_purpose_isolation 1 "alice@x.com" 0 10 dbLoginW dbLoginW
      ⟨"alice", "pw123"⟩ 0 tokLoginW (by decide)).2.1,
    (token_purpose_isolation 1 "alice@x.com" 0 10 dbLoginW dbLoginW
      ⟨"alice", "pw123"⟩ 0 tokLoginW (by decide)).2.2⟩

/-- C10: login with the correct password of a disabled account fails
with the dedicated 403, while the resolver accepts a session token naming
that same disabled account at any instant up to its expiry and returns
the principal, with no active-flag check per request. -/
theorem inactive_account_gate
    (u : User) (db : Db) (p : String) (salt : Nat) (now : Int)
    (huser : db.users.filter (fun x => x.username = u.username) = [u])
    (hpw : get_password_hash p salt = .ok u.hashed_password)
    (hinactive : u.is_active = false) :
    login ⟨u.username, p⟩ db now =
      .error (.http 403
        "Your account has been disabled. Please contact an administrator.") ∧
    (∀ (uid : Int) (rolename : String) (issuedAt now2 : Int),
      now2 ≤ issuedAt + ACCESS_TOKEN_EXPIRE_MINUTES * 60 →
      get_current_active_user
        (create_access_token
          [("sub", .str u.username), ("user_id", .num uid), ("role", .str rolename)]
          (some (ACCESS_TOKEN_EXPIRE_MINUTES * 60)) issuedAt) db now2 = .ok u) := by
  constructor
  · have hver : verify_password p u.hashed_password = .ok true :=
      verify_password_of_ok p salt u.hashed_password hpw
    simp [login, authenticate_user, get_user_by_username, huser, scalar_one_or_none,
      hver, hinactive, Bind.bind, Except.bind, pure, Except.pure, throw, throwThe,
      MonadExceptOf.throw]
  · intro uid rolename issuedAt now2 hnow2
    have hsub : Claims.get (setClaim
        [("sub", ClaimValue.str u.username), ("user_id", ClaimValue.num uid),
         ("role", ClaimValue.str rolename)] "exp"
        (.num (issuedAt + ACCESS_TOKEN_EXPIRE_MINUTES * 60))) "sub"
        = some (.str u.username) := by
      rw [get_setClaim_ne _ _ _ _ (by decide)]
      simp [Claims.get]
    unfold get_current_active_user get_current_user
    rw [jwtDecode_create_access_token _ _ _ _ hnow2]
    simp [hsub, huser, scalar_one_or_none, Bind.bind, Except.bind, pure, Except.pure]

/-- Concrete instance of inactive_account_gate: disabled bob cannot log
in, yet an unexpired session token naming bob still resolves to bob. -/
theorem inactive_account_gate_witness :
    login ⟨bobW.username, "pw123"⟩ dbInactiveW 0 =
      .error (.http 403
        "Your account has been disabled. Please contact an administrator.") ∧
    get_current_active_user
      (create_access_token
        [("sub", .str bobW.username), ("user_id", .num 99), ("role", .str "user")]
        (some (ACCESS_TOKEN_EXPIRE_MINUTES * 60)) 0) dbInactiveW 100 = .ok bobW :=
  ⟨(inactive_account_gate bobW dbInactiveW "pw123" 0 0
      (by decide) (by decide) (by decide)).1,
    (inactive_account_gate bobW dbInactiveW "pw123" 0 0
      (by decide) (by decide) (by decide)).2 99 "user" 0 100 (by decide)⟩

/-- C2: an admin principal targeting the own account is rejected by all
three of role change, disable and delete, with the dedicated self-action
error raised before any write (the operation produces no new state), even
though the admin role passes the require_admin gate; the role-change
hypotheses keep its earlier validation steps from failing first. -/
theorem admin_self_target_rejection
    (admin : User) (db : Db) (requestRole : String) (role : Role) (activeVal : Bool)
    (hadmin : admin.role.name = "admin")
    (hmem : db.users.filter (fun x => x.id = admin.id) = [admin])
    (hvalid : pyStrip (pyLower requestRole) ∈ valid_system_roles)
    (hrolerow : db.roles.filter (fun r => r.name = pyStrip (pyLower requestRole)) = [role]) :
    update_user_role admin.id requestRole admin db =
      .error (.http 400 "You cannot change your own role") ∧
    update_user_status admin.id activeVal admin db =
      .error (.http 400 "You cannot disable your own account") ∧
    delete_user admin.id admin db =
      .error (.http 400 "You cannot delete your own account") := by
  refine ⟨?_, ?_, ?_⟩
  · simp [update_user_role, require_admin, hadmin, hvalid, hrolerow,
      get_user_by_id, hmem, scalar_one_or_none,
      Bind.bind, Except.bind, pure, Except.pure, throw, throwThe,
      MonadExceptOf.throw]
  · simp [update_user_status, require_admin, hadmin, get_user_by_id, hmem,
      scalar_one_or_none, Bind.bind, Except.bind, pure, Except.pure, throw,
      throwThe, MonadExceptOf.throw]
  · simp [delete_user, require_admin, hadmin, get_user_by_id, hmem,
      scalar_one_or_none, Bind.bind, Except.bind, pure, Except.pure, throw,
      throwThe, MonadExceptOf.throw]

/-- Concrete instance of admin_self_target_rejection with the seeded
admin targeting the own account. -/
theorem admin_self_target_rejection_witness :
    update_user_role rootW.id "user" rootW dbAdminW =
      .error (.http 400 "You cannot change your own role") ∧
    update_user_status rootW.id false rootW dbAdminW =
      .error (.http 400 "You cannot disable your own account") ∧
    delete_user rootW.id rootW dbAdminW =
      .error (.http 400 "You cannot delete your own account") :=
  admin_self_target_rejection rootW dbAdminW "user" userRoleW false
    (by decide) (by decide) (by decide) (by decide)

/-- C3: the unauthenticated register route (its signature carries no
principal or token at all) creates the new user with the systemic role
the optional role field normalizes to — in particular an anonymous
request whose role field normalizes to admin creates an admin principal —
and the default role user applies exactly when the field is absent or
blank.  The NUL-free-digest hypothesis keeps the bcrypt hashing step from
raising (see the C4 theorem for the digests on which it does). -/
theorem register_role_escalation
    (inp : RegisterInput) (salt : Nat) (db : Db) (adminRole : Role)
    (hu : pyStrip inp.username ≠ "") (he : pyStrip inp.email ≠ "")
    (hp : pyStrip inp.password ≠ "")
    (hnul : (prehash_password (pyStrip inp.password)).contains 0 = false)
    (hr : registerRoleName inp.role = "admin")
    (hrow : db.roles.filter (fun r => r.name = "admin") = [adminRole])
    (hnouser : db.users.filter (fun x => x.username = pyStrip inp.username) = [])
    (hnoemail : db.users.filter (fun x => x.email = pyStrip inp.email) = []) :
    register inp salt db = .ok
      ({ db with users := db.users ++ [registeredUser inp salt db adminRole] },
        registeredUser inp salt db adminRole) ∧
    (registeredUser inp salt db adminRole).role = adminRole ∧
    registerRoleName none = "user" ∧
    (∀ s : String, pyStrip s = "" → registerRoleName (some s) = "user") ∧
    (∀ s : String, pyStrip s ≠ "" → registerRoleName (some s) = pyStrip (pyLower s)) := by
  refine ⟨?_, rfl, rfl, ?_, ?_⟩
  · have hnul' : ¬ (0 ∈ prehash_password (pyStrip inp.password)) := by
      simpa using hnul
    simp [register, hu, he, hp, hr, get_user_by_username, get_user_by_email,
      hrow, hnouser, hnoemail, scalar_one_or_none, registeredUser,
      get_password_hash, hashpw, hnul', storedHash,
      Bind.bind, Except.bind, pure, Except.pure, valid_system_roles]
  · intro s hs
    by_cases h0 : s = ""
    · simp [registerRoleName, h0]
    · simp [registerRoleName, h0, hs]
  · intro s hs
    have h0 : s ≠ "" := by
      intro e
      rw [e] at hs
      exact hs rfl
    simp [registerRoleName, h0, hs]

/-- Concrete instance of register_role_escalation: an anonymous request
with role field "Admin " creates an admin principal in a fresh database. -/
theorem register_role_escalation_witness :
    register ⟨"eve", "eve@x.com", "pw", some "Admin "⟩ 7 dbRegW = .ok
      ({ dbRegW with users := dbRegW.users ++
          [registeredUser ⟨"eve", "eve@x.com", "pw", some "Admin "⟩ 7 dbRegW adminRoleW] },
        registeredUser ⟨"eve", "eve@x.com", "pw", some "Admin "⟩ 7 dbRegW adminRoleW) ∧
    (registeredUser ⟨"eve", "eve@x.com", "pw", some "Admin "⟩ 7 dbRegW adminRoleW).role.name
      = "admin" :=
  ⟨(register_role_escalation ⟨"eve", "eve@x.com", "pw", some "Admin "⟩ 7 dbRegW adminRoleW
      (by decide) (by decide) (by decide) (by decide) (by decide) (by decide)
      (by decide) (by decide)).1,
    by decide⟩

/-- C1: evaluation of the last-owner logic on concrete group states.
Demoting or removing the sole owner membership is blocked with the
last-owner 400 and the membership stays in place (the operation yields no
new state).  With exactly two owner memberships the demotion and the
removal succeed as the claim says.  But with three owner memberships the
other-owners query returns two rows and scalar_one_or_none raises
MultipleResultsFound (an unhandled 500), so the part of the claim that
says the operation succeeds whenever at least two owner memberships exist
is false on the code. -/
theorem last_owner_protection_evaluation :
    update_member_role 1 1 "member" rootW
        (dbGroupW [⟨1, 1, "owner"⟩, ⟨2, 1, "member"⟩]) =
      .error (.http 400
        "Cannot change role of the last owner. Promote another member to owner first.") ∧
    remove_member_from_group 1 1 rootW (dbGroupW [⟨1, 1, "owner"⟩]) =
      .error (.http 400 "Cannot remove the last owner from the group") ∧
    update_member_role 1 1 "member" rootW
        (dbGroupW [⟨1, 1, "owner"⟩, ⟨2, 1, "owner"⟩]) =
      .ok (dbGroupW [⟨1, 1, "member"⟩, ⟨2, 1, "owner"⟩]) ∧
    remove_member_from_group 1 1 rootW
        (dbGroupW [⟨1, 1, "owner"⟩, ⟨2, 1, "owner"⟩]) =
      .ok (dbGroupW [⟨2, 1, "owner"⟩]) ∧
    update_member_role 1 1 "member" rootW
        (dbGroupW [⟨1, 1, "owner"⟩, ⟨2, 1, "owner"⟩, ⟨3, 1, "owner"⟩]) =
      .error .multipleResultsFound ∧
    remove_member_from_group 1 1 rootW
        (dbGroupW [⟨1, 1, "owner"⟩, ⟨2, 1, "owner"⟩, ⟨3, 1, "owner"⟩]) =
      .error .multipleResultsFound := by
  decide

end Tma
